import Mathlib

/-!
# Verification of the idobata-discourse-agent orchestration core

A shallow embedding of the event-orchestration pipeline of the
`digitaldemocracy2030/idobata-discourse-agent` repository, together with
theorems settling the frozen claims about it.

The repository contains two generations of the application:
* the FastAPI refactor under `src/` (`src/routers/discourse_routes.py`,
  `src/services/moderation.py`, `src/services/topic_service.py`,
  `src/services/vector_search.py`, `src/services/topic_analysis.py`), served
  by `src/main.py`; and
* the legacy single-file application `discourse_bot.py` at the repository
  root.

Both are embedded below where a claim refers to both.  Every external
collaborator call (Gemini, the Discourse REST API, the Vertex AI vector
index, the summary microservice, Slack) is represented by an explicit
outcome parameter of type `Except String α`: `.error e` models the call
raising an exception whose text is `e`, `.ok v` models a successful reply
`v`.  Python control flow, string processing and dict/truthiness semantics
are translated function by function from the source.
-/

/-! ## Python string primitives

Small executable models of the Python `str` operations used by the code:
`strip`, `lower`, `startswith`, whitespace `split`, `' '.join`,
`split('|')`, `int(...)`, digit filtering and substring containment.
They operate on `List Char`, which is the kernel representation of `String`.
-/

/-- Python `s.strip()` on a character list: drop leading and trailing
whitespace. -/
def stripChars (cs : List Char) : List Char :=
  ((cs.dropWhile Char.isWhitespace).reverse.dropWhile Char.isWhitespace).reverse

/-- Python `s.strip()`. -/
def pyStrip (s : String) : String :=
  (stripChars s.toList).asString

/-- Python `s.lower()` (ASCII case folding, which is what the code relies
on for its `yes`/`no` checks). -/
def pyLower (s : String) : String :=
  (s.toList.map Char.toLower).asString

/-- Python `s.startswith(pre)`. -/
def pyStartsWith (s pre : String) : Bool :=
  pre.toList.isPrefixOf s.toList

/-- Helper for Python `s.split()` (split on whitespace runs, dropping empty
fields): accumulates the current word in reverse. -/
def pyWordsAux : List Char → List Char → List String
  | [], acc => if acc.isEmpty then [] else [acc.reverse.asString]
  | c :: cs, acc =>
    if c.isWhitespace then
      if acc.isEmpty then pyWordsAux cs [] else acc.reverse.asString :: pyWordsAux cs []
    else
      pyWordsAux cs (c :: acc)

/-- Python `s.split()` with no argument. -/
def pyWords (s : String) : List String :=
  pyWordsAux s.toList []

/-- Python `' '.join(xs)`. -/
def pyJoinSpace (xs : List String) : String :=
  String.intercalate " " xs

/-- Helper for Python `s.split(sep)` with a one-character separator: keeps
empty fields, so the result always has (number of separators + 1) fields. -/
def pySplitAux (c0 : Char) : List Char → List (List Char)
  | [] => [[]]
  | c :: cs =>
    if c = c0 then
      [] :: pySplitAux c0 cs
    else
      match pySplitAux c0 cs with
      | [] => [[c]]
      | w :: ws => (c :: w) :: ws

/-- Python `s.split(sep)` for a one-character separator. -/
def pySplit (c0 : Char) (s : String) : List String :=
  (pySplitAux c0 s.toList).map List.asString

/-- Numeric value of a digit list, most significant digit first. -/
def digitsToNat (cs : List Char) : Nat :=
  cs.foldl (fun n c => 10 * n + (c.toNat - 48)) 0

/-- Python `int(s)`: strip whitespace, accept an optional sign followed by a
nonempty run of digits, raise `ValueError` (here: `none`) otherwise. -/
def pyInt (s : String) : Option Int :=
  let body : List Char → Option Nat := fun cs =>
    if cs.isEmpty ∨ cs.any (fun c => !c.isDigit) then none else some (digitsToNat cs)
  match stripChars s.toList with
  | '+' :: rest => (body rest).map Int.ofNat
  | '-' :: rest => (body rest).map (fun n => -(n : Int))
  | rest => (body rest).map Int.ofNat

/-- `''.join(filter(str.isdigit, s))` as used by the vector-search id
extraction. -/
def extractDigits (s : String) : String :=
  (s.toList.filter Char.isDigit).asString

/-- `int(t) if t else None` for a digits-only string `t` (the Python call
cannot fail there, since `t` is built by filtering digits). -/
def pyIntOfDigitStr (s : String) : Option Int :=
  if s.toList.isEmpty then none else some (Int.ofNat (digitsToNat s.toList))

/-- Python `needle in haystack` substring test (helper on lists). -/
def hasSubAux (needle : List Char) : List Char → Bool
  | [] => needle.isPrefixOf []
  | c :: cs => needle.isPrefixOf (c :: cs) || hasSubAux needle cs

/-- Python `needle in haystack` for strings. -/
def pyContains (haystack needle : String) : Bool :=
  hasSubAux needle.toList haystack.toList

/-! ## Data model

`src/models/schemas.py` and the dict shapes the services consume. -/

/-- A candidate topic as consumed by the duplicate check: the code reads
`t['id']`, `t.get('title', '')` and `t.get('excerpt', '')`. -/
structure CandidateTopic where
  id : Int
  title : String
  excerpt : String
deriving DecidableEq, Repr

/-- `TopicSimilarityResponse` from `src/models/schemas.py`. -/
structure TopicSimilarityResponse where
  is_duplicate : Bool
  explanation : String
  similar_topic_id : Option Int
deriving DecidableEq, Repr

/-- The `post` dict of a webhook payload.  `Option` models key presence:
`none` means the key is absent from the dict. -/
structure PostDict where
  id : Option Int
  topic_id : Option Int
  title : Option String
  raw : Option String
  deleted_at : Option String
deriving DecidableEq, Repr

/-- `DELETION_MESSAGE` from `src/config/settings.py` and `discourse_bot.py`. -/
def DELETION_MESSAGE : String :=
  "このコメントはガイドラインを違反しているため削除されました"

/-- `POSTS_THRESHOLD` from `src/config/settings.py`. -/
def POSTS_THRESHOLD : Nat := 6

/-! ## ModerationService (`src/services/moderation.py`) -/

/-- `ModerationService.check_content_appropriateness` (moderation.py lines
16-44).  `gen content` is the outcome of the Gemini call
`self.model.generate_content(prompt).text` for the prompt built from the
URL- and HTML-stripped `content` (the cleaning and prompt construction
feed only the collaborator input and are folded into `gen`; they cannot
raise).  On success the stripped, lowercased reply is checked for the
leading `yes`, and the explanation is the reply with the first
whitespace-separated word removed; on any exception the function returns
`(True, error text)`. -/
def check_content_appropriateness (content : String)
    (gen : String → Except String String) : Bool × String :=
  match gen content with
  | .error e => (true, "Error in content appropriateness check: " ++ e)
  | .ok t =>
    let response_text := pyLower (pyStrip t)
    (pyStartsWith response_text "yes", pyJoinSpace ((pyWords response_text).drop 1))

/-- The legacy `check_content_appropriateness` from `discourse_bot.py`
(lines 56-82).  Identical success parsing, but on an exception it returns
`(False, "Error analyzing content: " + str(e))`. -/
def discourse_bot_check_content_appropriateness (content : String)
    (gen : String → Except String String) : Bool × String :=
  match gen content with
  | .error e => (false, "Error analyzing content: " ++ e)
  | .ok t =>
    let response_text := pyLower (pyStrip t)
    (pyStartsWith response_text "yes", pyJoinSpace ((pyWords response_text).drop 1))

/-- `ModerationService.deep_similarity_check` (moderation.py lines 46-111).
`reply` is the outcome of the Gemini call (the prompt is built from the
title, content and candidate list and affects only the collaborator).  The
reply is split on `'|'`; anything but exactly three fields yields
`(False, "Invalid response format from AI", None)`.  Field 1 decides the
verdict (`yes` after strip+lower), field 2 is the explanation, field 3 is
parsed with `int(...)` only when the verdict is positive — a `ValueError`
there is caught by the surrounding `except` like a collaborator failure. -/
def deep_similarity_check (candidate_topics : List CandidateTopic)
    (reply : Except String String) : Bool × String × Option Int :=
  match candidate_topics with
  | [] => (false, "No topics to compare", none)
  | _ :: _ =>
    match reply with
    | .error e => (false, "Error in deep similarity check: " ++ e, none)
    | .ok t =>
      let parts := pySplit '|' (pyStrip t)
      if parts.length ≠ 3 then
        (false, "Invalid response format from AI", none)
      else
        let is_duplicate := pyLower (pyStrip (parts.getD 0 "")) = "yes"
        let explanation := pyStrip (parts.getD 1 "")
        if is_duplicate then
          match pyInt (pyStrip (parts.getD 2 "")) with
          | some topic_id => (true, explanation, some topic_id)
          | none =>
            (false, "Error in deep similarity check: invalid literal for int() with base 10", none)
        else
          (false, explanation, none)

/-! ## VectorSearchService (`src/services/vector_search.py`) -/

/-- One entry of `response.nearest_neighbors[i]`: the code reads
`neighbor.id` (a string) and `neighbor.distance`.  Scores are modelled as
rationals; the claims only compare values exactly representable there. -/
structure Neighbor where
  nid : String
  distance : ℚ

/-- `VectorSearchService.check_topic_similarity` (vector_search.py lines
57-93).  `use_vector_search` is the configured/initialized flag;
`findNeighbors` is the outcome of the embedding call plus
`find_neighbors`, whose reply is the `nearest_neighbors` list of lists.
When the top score reaches the threshold, the digits of the neighbor id
are extracted and converted to a number (`None` when there are none). -/
def check_topic_similarity (use_vector_search : Bool)
    (findNeighbors : Except String (List (List Neighbor)))
    (threshold : ℚ) : Bool × String × Option Int :=
  if use_vector_search = false then
    (false, "Vector search is not enabled", none)
  else
    match findNeighbors with
    | .error e => (false, "Error in similarity check: " ++ e, none)
    | .ok nearest_neighbors =>
      match nearest_neighbors with
      | [] => (false, "No similar topics found", none)
      | first :: _ =>
        match first with
        | [] =>
          (false, "Error in similarity check: list index out of range", none)
        | neighbor :: _ =>
          if threshold ≤ neighbor.distance then
            (true, "Similar topic found with score " ++ toString neighbor.distance,
              pyIntOfDigitStr (extractDigits neighbor.nid))
          else
            (false, "No similar topics found above threshold " ++ toString threshold, none)

/-- The default `threshold=0.85` of `check_topic_similarity`;
`TopicService.check_topic_duplication` calls it with this value. -/
def similarityThreshold : ℚ := 85 / 100

/-! ## TopicService (`src/services/topic_service.py`) -/

/-- One insertion step of the Python dict comprehension
`{topic['id']: topic for topic in candidate_topics}`: an existing key keeps
its position and takes the new value, a new key is appended. -/
def insertById (acc : List (Int × CandidateTopic)) (t : CandidateTopic) :
    List (Int × CandidateTopic) :=
  if acc.any (fun p => p.1 = t.id) then
    acc.map (fun p => if p.1 = t.id then (p.1, t) else p)
  else
    acc ++ [(t.id, t)]

/-- `list({topic['id']: topic for topic in candidate_topics}.values())`
(topic_service.py line 65): deduplicate by id with Python dict insertion
semantics. -/
def dedupById (candidate_topics : List CandidateTopic) : List CandidateTopic :=
  (candidate_topics.foldl insertById []).map Prod.snd

/-- Python truthiness of an `Optional[int]`: `None` and `0` are falsy. -/
def truthyOptInt : Option Int → Bool
  | none => false
  | some n => n ≠ 0

/-- Candidate pool construction of `check_topic_duplication`
(topic_service.py lines 49-65): when the vector signal is positive with a
truthy id, fetch that topic (`fetch_topic`; an exception is caught and the
topic skipped, an empty/falsy result is skipped too), then extend with the
recent topics and deduplicate by id.  This is exactly the list passed to
`deep_similarity_check`. -/
def candidate_pool (vres : Bool × String × Option Int)
    (fetch_topic : Int → Except String (Option CandidateTopic))
    (recent_topics : List CandidateTopic) : List CandidateTopic :=
  let vector_candidates : List CandidateTopic :=
    if vres.1 && truthyOptInt vres.2.2 then
      match fetch_topic (vres.2.2.getD 0) with
      | .ok (some t) => [t]
      | .ok none => []
      | .error _ => []
    else []
  dedupById (vector_candidates ++ recent_topics)

/-- The collaborator outcomes `TopicService.check_topic_duplication`
depends on: the recent-topics fetch (its exception is NOT caught), the
vector-search state and call, the topic fetch for a vector match, the
Gemini reply of the deep check, and the best-effort enrichment fetch +
Slack notification performed on a positive verdict (its exception is
caught). -/
structure DupEnv where
  recent_topics : Except String (List CandidateTopic)
  vector_enabled : Bool
  vector_call : Except String (List (List Neighbor))
  fetch_topic : Int → Except String (Option CandidateTopic)
  deep_reply : Except String String
  enrich : Int → Except String Unit

/-- `TopicService.check_topic_duplication` (topic_service.py lines 39-114).
`.error` models the method raising (which happens exactly when the
recent-topics fetch raises); both the try and the except branch of the
enrichment step return the same positive response. -/
def check_topic_duplication (env : DupEnv) :
    Except String TopicSimilarityResponse :=
  match env.recent_topics with
  | .error e => .error e
  | .ok recent =>
    let vres := check_topic_similarity env.vector_enabled env.vector_call similarityThreshold
    let unique_candidates := candidate_pool vres env.fetch_topic recent
    let d := deep_similarity_check unique_candidates env.deep_reply
    if d.1 && truthyOptInt d.2.2 then
      match env.enrich (d.2.2.getD 0) with
      | .ok _ => .ok ⟨true, d.2.1, d.2.2⟩
      | .error _ => .ok ⟨true, d.2.1, d.2.2⟩
    else
      .ok ⟨false, "No similar topics found", none⟩

/-! ## TopicAnalysisService (`src/services/topic_analysis.py`) -/

/-- The trigger condition of `analyze_topic_if_needed` (topic_analysis.py
line 104): `(current_count > 0 and current_count % POSTS_THRESHOLD == 0)
or force_analyze`. -/
def analysis_trigger (current_count : Nat) (force_analyze : Bool) : Bool :=
  (decide (0 < current_count) && decide (current_count % POSTS_THRESHOLD = 0)) || force_analyze

/-- Whether `analyze_topic_if_needed` (topic_analysis.py lines 94-143) runs
the analysis workflow (`analyze_topic` and the subsequent posting):
`count_result` is the outcome of `get_topic_post_count`; an exception
there is caught by the surrounding `except` and no analysis runs. -/
def analyze_topic_if_needed (count_result : Except String Nat)
    (force_analyze : Bool) : Bool :=
  match count_result with
  | .error _ => false
  | .ok current_count => analysis_trigger current_count force_analyze

/-- A project record of the external summary store, modelled with a single
identifier: the store lists every created project under the same
identifier it reported at creation (the code reads it as `_id` on listed
records and `id` on the creation reply). -/
structure SummaryProject where
  name : String
  description : String
  ident : String
deriving DecidableEq, Repr

/-- `TopicAnalysisService._create_or_get_project` (topic_analysis.py lines
23-42) together with its effect on the external store.  The store state is
the list returned by `list_projects`; `create_project` appends a record
whose identifier `fresh` is chosen by the store and returns it.  The
lookup scans the listed projects for the first one named
`topic_{topic_id}`. -/
def create_or_get_project (projects : List SummaryProject) (topic_id : Int)
    (title : String) (fresh : String) : String × List SummaryProject :=
  match projects.find? (fun p => p.name == "topic_" ++ toString topic_id) with
  | some p => (p.ident, projects)
  | none =>
    (fresh, projects ++ [⟨"topic_" ++ toString topic_id, title, fresh⟩])

/-! ## Webhook dispatch (`src/routers/discourse_routes.py` and the legacy
`discourse_bot.py` handler) -/

/-- A collaborator task dispatched by the webhook handler.  Each
constructor marks the corresponding call being made: the duplicate check
(`topic_service.check_topic_duplication`), the moderation handler
(`moderation_service.handle_moderation`), the vector indexing
(`vector_search_service.index_topic`) and the analysis threshold check
(`topic_analysis_service.analyze_topic_if_needed`, with its `force`
argument). -/
inductive DispatchedCall where
  | duplicateCheck
  | moderation
  | indexTopic
  | analysisCheck (force : Bool)
deriving DecidableEq, Repr

/-- HTTP outcome of the router endpoint: `unprocessableEntity` is FastAPI
request validation failing (422), `ok` is the handler returning normally
(200), `internalServerError` is an exception escaping the handler (500). -/
inductive HttpResponse where
  | unprocessableEntity
  | ok (body : String)
  | internalServerError (msg : String)
deriving DecidableEq, Repr

/-- Collaborator outcomes the router webhook handler depends on.  Only the
duplicate check can raise out of the handler (`DupEnv.recent_topics`):
`handle_moderation`, `index_topic` and `analyze_topic_if_needed` each
catch every exception internally (moderation.py lines 117-151,
vector_search.py lines 43-55, topic_analysis.py lines 96-143), so their
outcomes are irrelevant to the HTTP response and are not listed here. -/
structure WebhookEnv where
  dup : DupEnv

/-- Steps of `webhook_handler` (discourse_routes.py lines 89-108) after the
duplicate-check block: moderation always runs (and never raises), indexing
runs when `topic_id`, `title` and `raw` are all present (and never
raises), and when `topic_id` is present without `title` the handler reads
`payload.post['raw']` — a `KeyError` escapes if `raw` is absent —
and calls the analysis check with `force` iff `"aisum"` occurs in `raw`. -/
def webhook_tail (post : PostDict) (acc : List DispatchedCall) :
    HttpResponse × List DispatchedCall :=
  let acc := acc ++ [DispatchedCall.moderation]
  let acc :=
    if post.topic_id.isSome && post.title.isSome && post.raw.isSome then
      acc ++ [DispatchedCall.indexTopic]
    else acc
  if post.topic_id.isSome && !post.title.isSome then
    match post.raw with
    | none => (.internalServerError "KeyError: raw", acc)
    | some r =>
      (.ok "processing", acc ++ [DispatchedCall.analysisCheck (pyContains r "aisum")])
  else
    (.ok "processing", acc)

/-- `webhook_handler` (discourse_routes.py lines 72-108): when the post
carries both `title` and `raw` the duplicate check runs first and its
exception (if any) escapes the handler; then the tail steps run and the
handler returns `{"status": "processing"}`. -/
def webhook_handler (env : WebhookEnv) (post : PostDict) :
    HttpResponse × List DispatchedCall :=
  if post.title.isSome && post.raw.isSome then
    match check_topic_duplication env.dup with
    | .error e => (.internalServerError e, [DispatchedCall.duplicateCheck])
    | .ok _ => webhook_tail post [DispatchedCall.duplicateCheck]
  else
    webhook_tail post []

/-- The router endpoint including FastAPI request validation of
`WebhookPayload` (schemas.py lines 10-12): a JSON body without a `post`
field fails validation with 422 before the handler runs (`none` input);
otherwise the handler runs on the post dict. -/
def webhook_endpoint (env : WebhookEnv) (body : Option PostDict) :
    HttpResponse × List DispatchedCall :=
  match body with
  | none => (.unprocessableEntity, [])
  | some post => webhook_handler env post

/-- The legacy webhook handler of `discourse_bot.py` (lines 312-357): it
always answers 200, and schedules the single moderation background task
only for a body with a `post` whose `deleted_at` is unset and whose `raw`
differs from the system deletion notice. -/
def discourse_bot_webhook_handler (body : Option PostDict) :
    HttpResponse × List DispatchedCall :=
  match body with
  | none => (.ok "", [])
  | some post =>
    if post.deleted_at.isSome then (.ok "", [])
    else if post.raw == some DELETION_MESSAGE then (.ok "", [])
    else (.ok "", [DispatchedCall.moderation])

/-! ## Shared concrete fixtures -/

/-- A duplicate-check environment whose recent-topics fetch succeeds with an
empty list and whose remaining collaborators are unavailable. -/
def dupEnvOkEmpty : DupEnv :=
  ⟨.ok [], false, .error "disabled", fun _ => .error "unreachable",
    .error "unreachable", fun _ => .error "unreachable"⟩

/-- Webhook environment built on `dupEnvOkEmpty`. -/
def envOkEmpty : WebhookEnv := ⟨dupEnvOkEmpty⟩

/-- A duplicate-check environment whose recent-topics fetch raises. -/
def dupEnvDown : DupEnv :=
  ⟨.error "ReadTimeout", false, .error "disabled", fun _ => .error "unreachable",
    .error "unreachable", fun _ => .error "unreachable"⟩

/-- A topic-creation post event: `title` and `raw` present. -/
def topicCreationPost : PostDict := ⟨some 1, some 10, some "T", some "hello", none⟩

/-! ## Helper lemmas -/

/-- `check_topic_duplication` returns normally whenever the recent-topics
fetch does: every other collaborator failure is caught inside. -/
theorem check_topic_duplication_isOk (env : DupEnv) (recent : List CandidateTopic)
    (h : env.recent_topics = .ok recent) :
    ∃ r, check_topic_duplication env = .ok r := by
  unfold check_topic_duplication
  rw [h]
  dsimp only
  split
  · split <;> exact ⟨_, rfl⟩
  · exact ⟨_, rfl⟩

/-! ## C1 — moderation failure policy -/

/-- C1, counterexample: the claim states that on a failing collaborator
call `check_content_appropriateness` returns `is_appropriate = true`; the
`check_content_appropriateness` of `discourse_bot.py` (cited by the claim,
lines 70-82) instead returns `False` when the Gemini call raises. -/
theorem check_content_fail_closed_cex :
    (discourse_bot_check_content_appropriateness "hello world"
      (fun _ => Except.error "504 Deadline Exceeded")).1 = false := rfl

/-- C1, amended: for every content input, when the moderation collaborator
call raises, the service-layer `check_content_appropriateness`
(`src/services/moderation.py` lines 32-44) returns `is_appropriate = true`
with the error text as explanation and never raises, while the legacy
`discourse_bot.py` variant fails closed with `is_appropriate = false` and
the error text. -/
theorem check_content_appropriateness_fail_open (content : String)
    (gen : String → Except String String) (e : String)
    (h : gen content = .error e) :
    check_content_appropriateness content gen
        = (true, "Error in content appropriateness check: " ++ e) ∧
      discourse_bot_check_content_appropriateness content gen
        = (false, "Error analyzing content: " ++ e) := by
  constructor <;>
    simp [check_content_appropriateness, discourse_bot_check_content_appropriateness, h]

/-- C1, witness: the fail-open theorem applied to a concrete content and a
collaborator that times out. -/
theorem check_content_appropriateness_fail_open_witness :
    (fun (_ : String) => (Except.error "timeout" : Except String String)) "post body"
        = Except.error "timeout" ∧
      check_content_appropriateness "post body" (fun _ => Except.error "timeout")
        = (true, "Error in content appropriateness check: timeout") :=
  ⟨rfl,
    (check_content_appropriateness_fail_open "post body"
      (fun _ => Except.error "timeout") "timeout" rfl).1⟩

/-! ## C2 — webhook status codes -/

/-- C2, counterexample: a topic-creation event whose duplicate-check
collaborator (the recent-topics fetch inside `check_topic_duplication`,
topic_service.py line 42) raises makes the exception escape
`webhook_handler` (discourse_routes.py line 84 is not wrapped in any
try/except), so the caller gets a 500, not a 200-class response, although
validation passed. -/
theorem webhook_500_on_duplicate_check_failure_cex :
    (webhook_endpoint ⟨dupEnvDown⟩ (some topicCreationPost)).1
      = HttpResponse.internalServerError "ReadTimeout" := rfl

/-- C2, amended: a body without `post` is rejected with 422; a body with a
`post` carrying raw content receives the 200 `{"status": "processing"}`
response regardless of the outcomes (including exceptions) of the
moderation, vector-search, deep-similarity, topic-fetch, indexing and
analysis collaborators — provided the recent-topics fetch of the
duplicate check does not raise, since that exception (and a `KeyError` on
a reply event without `raw`) propagates to the caller as a 500. -/
theorem webhook_responses_amended (env : WebhookEnv) (post : PostDict)
    (recent : List CandidateTopic)
    (hrec : env.dup.recent_topics = .ok recent)
    (hraw : post.raw.isSome = true) :
    (webhook_endpoint env (some post)).1 = HttpResponse.ok "processing" ∧
    (webhook_endpoint env none).1 = HttpResponse.unprocessableEntity := by
  refine ⟨?_, rfl⟩
  obtain ⟨r, hr⟩ := check_topic_duplication_isOk env.dup recent hrec
  obtain ⟨pid, ptid, ptitle, praw, pdel⟩ := post
  cases praw with
  | none => simp at hraw
  | some rawBody =>
    cases ptitle <;> cases ptid <;>
      simp [webhook_endpoint, webhook_handler, webhook_tail, hr]

/-- C2, witness: the amended theorem applied to a concrete environment
(recent-topics fetch succeeding, every other collaborator failing) and a
concrete topic-creation post. -/
theorem webhook_responses_amended_witness :
    envOkEmpty.dup.recent_topics = .ok [] ∧
    (topicCreationPost.raw.isSome = true) ∧
    (webhook_endpoint envOkEmpty (some topicCreationPost)).1 = HttpResponse.ok "processing" :=
  ⟨rfl, rfl, (webhook_responses_amended envOkEmpty topicCreationPost [] rfl rfl).1⟩

/-! ## C3 — deleted/self events -/

/-- A post event whose `deleted_at` is set. -/
def deletedPost : PostDict :=
  ⟨some 1, some 10, some "T", some "hello", some "2025-05-01T00:00:00Z"⟩

/-- A reply event whose raw content is exactly the system deletion notice. -/
def selfNoticePost : PostDict := ⟨some 2, some 10, none, some DELETION_MESSAGE, none⟩

/-- C3, code evaluated at the failing inputs: the router `webhook_handler`
(`src/routers/discourse_routes.py` lines 72-108) has no `deleted_at` /
deletion-notice filter, so a deleted post event still gets the
duplicate-check, moderation and indexing calls, and a self-notice reply
still gets the moderation and analysis-threshold calls — while the legacy
handler of `discourse_bot.py` (lines 330-347, which the claim and the spec
describe) dispatches nothing for either event. -/
theorem router_processes_deleted_and_self_posts :
    (webhook_handler envOkEmpty deletedPost).2
        = [DispatchedCall.duplicateCheck, DispatchedCall.moderation, DispatchedCall.indexTopic] ∧
    (webhook_handler envOkEmpty selfNoticePost).2
        = [DispatchedCall.moderation, DispatchedCall.analysisCheck false] ∧
    (discourse_bot_webhook_handler (some deletedPost)).2 = [] ∧
    (discourse_bot_webhook_handler (some selfNoticePost)).2 = [] :=
  ⟨rfl, rfl, rfl, rfl⟩

/-! ## C4 — analysis threshold -/

/-- C4: `analyze_topic_if_needed` runs the analysis workflow iff
`(current_post_count > 0 and current_post_count % POSTS_THRESHOLD == 0) or
force`, with `POSTS_THRESHOLD` fixed at 6; in particular `force = true`
fires at count 0, and without `force` a count that is not a positive
multiple of 6 does not fire. -/
theorem analysis_threshold_trigger_iff :
    POSTS_THRESHOLD = 6 ∧
    analyze_topic_if_needed (.ok 0) true = true ∧
    (∀ (c : Nat) (f : Bool),
      analyze_topic_if_needed (.ok c) f = true ↔ ((0 < c ∧ c % 6 = 0) ∨ f = true)) := by
  refine ⟨rfl, rfl, fun c f => ?_⟩
  simp [analyze_topic_if_needed, analysis_trigger, POSTS_THRESHOLD]

/-! ## C5 — deep-similarity reply parsing -/

/-- C5: for every non-empty candidate list, `deep_similarity_check` parses
the collaborator reply as three pipe-separated fields:
`"yes | very similar | 42"` gives `(True, "very similar", 42)`,
`"no | unique | 0"` gives `(False, "unique", None)`, `"garbage"` gives
`(False, "Invalid response format from AI", None)`, and in general every
reply that does not split into exactly three fields gives that same
non-duplicate result without raising. -/
theorem deep_similarity_parse_spec (cands : List CandidateTopic) (h : cands ≠ []) :
    deep_similarity_check cands (.ok "yes | very similar | 42")
        = (true, "very similar", some 42) ∧
    deep_similarity_check cands (.ok "no | unique | 0") = (false, "unique", none) ∧
    deep_similarity_check cands (.ok "garbage")
        = (false, "Invalid response format from AI", none) ∧
    (∀ t : String, (pySplit '|' (pyStrip t)).length ≠ 3 →
      deep_similarity_check cands (.ok t)
        = (false, "Invalid response format from AI", none)) := by
  match cands with
  | [] => exact absurd rfl h
  | c :: cs =>
    refine ⟨rfl, rfl, rfl, fun t ht => ?_⟩
    simp [deep_similarity_check, ht]

/-- C5, witness: the parsing theorem applied to a concrete one-element
candidate list. -/
theorem deep_similarity_parse_spec_witness :
    ([⟨(1 : Int), "t", "e"⟩] : List CandidateTopic) ≠ [] ∧
    deep_similarity_check [⟨(1 : Int), "t", "e"⟩] (.ok "yes | very similar | 42")
      = (true, "very similar", some 42) :=
  ⟨by simp, (deep_similarity_parse_spec [⟨(1 : Int), "t", "e"⟩] (by simp)).1⟩

/-! ## C6 — candidate deduplication -/

/-- Inserting into the modelled Python dict keeps the key list duplicate
free. -/
theorem insertById_map_fst_nodup (acc : List (Int × CandidateTopic))
    (t : CandidateTopic) (h : (acc.map Prod.fst).Nodup) :
    ((insertById acc t).map Prod.fst).Nodup := by
  unfold insertById
  split
  · rw [List.map_map]
    have hsame :
        acc.map (Prod.fst ∘ fun p => if p.1 = t.id then (p.1, t) else p)
          = acc.map Prod.fst := by
      refine List.map_congr_left fun p _ => ?_
      by_cases hp : p.1 = t.id <;> simp [hp]
    rw [hsame]
    exact h
  · rename_i hany
    rw [List.map_append]
    refine List.Nodup.append h (by simp) ?_
    intro x hx hx2
    simp only [List.map_cons, List.map_nil, List.mem_singleton] at hx2
    subst hx2
    rcases List.mem_map.mp hx with ⟨p, hp, hpx⟩
    exact hany (List.any_eq_true.mpr ⟨p, hp, by simp [hpx]⟩)

/-- Folding insertions keeps the key list duplicate free. -/
theorem foldl_insertById_nodup (ts : List CandidateTopic)
    (acc : List (Int × CandidateTopic)) (h : (acc.map Prod.fst).Nodup) :
    ((ts.foldl insertById acc).map Prod.fst).Nodup := by
  induction ts generalizing acc with
  | nil => exact h
  | cons t ts ih => exact ih _ (insertById_map_fst_nodup acc t h)

/-- Every pair stored by the modelled dict keys a topic by its own id. -/
theorem insertById_fst_eq_id (acc : List (Int × CandidateTopic))
    (t : CandidateTopic) (h : ∀ p ∈ acc, p.1 = p.2.id) :
    ∀ p ∈ insertById acc t, p.1 = p.2.id := by
  unfold insertById
  split
  · intro p hp
    rcases List.mem_map.mp hp with ⟨q, hq, hqp⟩
    by_cases hq2 : q.1 = t.id
    · rw [← hqp]
      simp [hq2]
    · rw [← hqp]
      simpa [hq2] using h q hq
  · intro p hp
    rcases List.mem_append.mp hp with hp | hp
    · exact h p hp
    · simp only [List.mem_singleton] at hp
      subst hp
      rfl

/-- Folded version of `insertById_fst_eq_id`. -/
theorem foldl_insertById_fst_eq_id (ts : List CandidateTopic)
    (acc : List (Int × CandidateTopic)) (h : ∀ p ∈ acc, p.1 = p.2.id) :
    ∀ p ∈ ts.foldl insertById acc, p.1 = p.2.id := by
  induction ts generalizing acc with
  | nil => exact h
  | cons t ts ih => exact ih _ (insertById_fst_eq_id acc t h)

/-- The id-keyed deduplication produces a list with pairwise distinct ids. -/
theorem dedupById_ids_nodup (ts : List CandidateTopic) :
    ((dedupById ts).map CandidateTopic.id).Nodup := by
  unfold dedupById
  rw [List.map_map]
  have h1 := foldl_insertById_nodup ts [] (by simp)
  have h2 := foldl_insertById_fst_eq_id ts [] (by simp)
  have hsame :
      (ts.foldl insertById []).map (CandidateTopic.id ∘ Prod.snd)
        = (ts.foldl insertById []).map Prod.fst :=
    List.map_congr_left fun p hp => (h2 p hp).symm
  rw [hsame]
  exact h1

/-- C6: for every recent-topics list and every vector-signal result, the
deduplicated candidate list that `check_topic_duplication` passes to
`deep_similarity_check` (built by `candidate_pool`, topic_service.py lines
49-65) contains no two entries with the same topic id — also when the
topic fetched for the vector match appears in the recent list as well. -/
theorem candidate_pool_ids_nodup (vres : Bool × String × Option Int)
    (fetch_topic : Int → Except String (Option CandidateTopic))
    (recent_topics : List CandidateTopic) :
    ((candidate_pool vres fetch_topic recent_topics).map CandidateTopic.id).Nodup := by
  unfold candidate_pool
  exact dedupById_ids_nodup _

/-! ## C7 — dispatch conditions -/

/-- C7: for every post event carrying raw content (every `PostEvent` of the
spec data model has `raw_content`), the router handler performs the
duplicate check exactly when the event carries a `title`, and performs the
analysis-threshold check exactly when the event has a `topic_id` and no
`title`; hence a topic-creation event triggers the duplicate check but no
analysis, and a reply triggers the analysis check but no duplicate
check. -/
theorem webhook_dispatch_conditions (env : WebhookEnv) (post : PostDict)
    (hraw : post.raw.isSome = true) :
    (DispatchedCall.duplicateCheck ∈ (webhook_handler env post).2
      ↔ post.title.isSome = true) ∧
    ((∃ f, DispatchedCall.analysisCheck f ∈ (webhook_handler env post).2)
      ↔ (post.topic_id.isSome = true ∧ post.title.isSome = false)) := by
  obtain ⟨pid, ptid, ptitle, praw, pdel⟩ := post
  cases praw with
  | none => simp at hraw
  | some rawBody =>
    cases ptitle with
    | none =>
      cases ptid <;> simp [webhook_handler, webhook_tail]
    | some ti =>
      cases hdup : check_topic_duplication env.dup with
      | error e => cases ptid <;> simp [webhook_handler, webhook_tail, hdup]
      | ok v => cases ptid <;> simp [webhook_handler, webhook_tail, hdup]

/-- C7, witness: the dispatch theorem applied to a concrete topic-creation
event. -/
theorem webhook_dispatch_conditions_witness :
    topicCreationPost.raw.isSome = true ∧
    (DispatchedCall.duplicateCheck ∈ (webhook_handler envOkEmpty topicCreationPost).2
      ↔ topicCreationPost.title.isSome = true) :=
  ⟨rfl, (webhook_dispatch_conditions envOkEmpty topicCreationPost rfl).1⟩

/-! ## C8 — idempotent project creation -/

/-- C8: triggering analysis-project creation twice for the same topic id
against the same external store yields the same project id and leaves the
store unchanged after the second call: `_create_or_get_project` looks up
the deterministic name `topic_{topic_id}` before creating
(topic_analysis.py lines 23-42), so the second trigger reuses the project
created (or found) by the first one. -/
theorem create_or_get_project_idempotent (projects : List SummaryProject)
    (topic_id : Int) (t1 t2 fresh1 fresh2 : String) :
    (create_or_get_project
        (create_or_get_project projects topic_id t1 fresh1).2 topic_id t2 fresh2).1
      = (create_or_get_project projects topic_id t1 fresh1).1 ∧
    (create_or_get_project
        (create_or_get_project projects topic_id t1 fresh1).2 topic_id t2 fresh2).2
      = (create_or_get_project projects topic_id t1 fresh1).2 := by
  cases hfind : projects.find? (fun p => p.name == "topic_" ++ toString topic_id) with
  | some p =>
    simp [create_or_get_project, hfind]
  | none =>
    simp only [create_or_get_project, hfind]
    rw [List.find?_append, hfind]
    simp [List.find?]

/-! ## C9 — vector similarity signal -/

/-- When the index is configured and the top neighbor reaches the
threshold, `check_topic_similarity` reports a duplicate with the digits of
the neighbor id. -/
theorem check_topic_similarity_hit (nb : Neighbor) (tl : List Neighbor)
    (rest : List (List Neighbor)) (θ : ℚ) (h : θ ≤ nb.distance) :
    check_topic_similarity true (.ok ((nb :: tl) :: rest)) θ
      = (true, "Similar topic found with score " ++ toString nb.distance,
          pyIntOfDigitStr (extractDigits nb.nid)) := by
  simp [check_topic_similarity, h]

/-- When the top neighbor stays below the threshold,
`check_topic_similarity` reports no duplicate. -/
theorem check_topic_similarity_miss (nb : Neighbor) (tl : List Neighbor)
    (rest : List (List Neighbor)) (θ : ℚ) (h : ¬ θ ≤ nb.distance) :
    check_topic_similarity true (.ok ((nb :: tl) :: rest)) θ
      = (false, "No similar topics found above threshold " ++ toString θ, none) := by
  simp [check_topic_similarity, h]

/-- C9: with the index not configured, `check_topic_similarity` returns
`(False, explanation, None)` for every collaborator outcome and never
raises; with the index configured, a top-neighbor score at or above the
threshold yields `is_duplicate = true` with the neighbor's numeric id
(instantiated at score 0.9 against the 0.85 default, neighbor id 42), and
a score below the threshold yields `is_duplicate = false` (instantiated at
score 0.7). -/
theorem vector_similarity_spec :
    (∀ (call : Except String (List (List Neighbor))) (θ : ℚ),
      check_topic_similarity false call θ = (false, "Vector search is not enabled", none)) ∧
    (∀ (nb : Neighbor) (tl : List Neighbor) (rest : List (List Neighbor)) (θ : ℚ),
      θ ≤ nb.distance →
        (check_topic_similarity true (.ok ((nb :: tl) :: rest)) θ).1 = true ∧
        (check_topic_similarity true (.ok ((nb :: tl) :: rest)) θ).2.2
          = pyIntOfDigitStr (extractDigits nb.nid)) ∧
    (∀ (nb : Neighbor) (tl : List Neighbor) (rest : List (List Neighbor)) (θ : ℚ),
      nb.distance < θ →
        (check_topic_similarity true (.ok ((nb :: tl) :: rest)) θ).1 = false) ∧
    (check_topic_similarity true (.ok [[⟨"42", 9 / 10⟩]]) similarityThreshold).1 = true ∧
    (check_topic_similarity true (.ok [[⟨"42", 9 / 10⟩]]) similarityThreshold).2.2 = some 42 ∧
    (check_topic_similarity true (.ok [[⟨"42", 7 / 10⟩]]) similarityThreshold).1 = false := by
  have hle : similarityThreshold ≤ ((9 : ℚ) / 10) := by norm_num [similarityThreshold]
  have hgt : ¬ similarityThreshold ≤ ((7 : ℚ) / 10) := by norm_num [similarityThreshold]
  refine ⟨fun call θ => rfl, ?_, ?_, ?_, ?_, ?_⟩
  · intro nb tl rest θ h
    rw [check_topic_similarity_hit nb tl rest θ h]
    exact ⟨rfl, rfl⟩
  · intro nb tl rest θ h
    rw [check_topic_similarity_miss nb tl rest θ (not_le.mpr h)]
  · rw [check_topic_similarity_hit ⟨"42", 9 / 10⟩ [] [] similarityThreshold hle]
  · rw [check_topic_similarity_hit ⟨"42", 9 / 10⟩ [] [] similarityThreshold hle]
    rfl
  · rw [check_topic_similarity_miss ⟨"42", 7 / 10⟩ [] [] similarityThreshold hgt]

/-- C9, witness: the configured-index clause applied to the concrete
neighbor of id "42" at score 0.9 against the default threshold. -/
theorem vector_similarity_spec_witness :
    similarityThreshold ≤ ((9 : ℚ) / 10) ∧
    (check_topic_similarity true (.ok [[⟨"42", (9 : ℚ) / 10⟩]]) similarityThreshold).1 = true :=
  ⟨by norm_num [similarityThreshold],
    (vector_similarity_spec.2.1 ⟨"42", (9 : ℚ) / 10⟩ [] [] similarityThreshold
      (by norm_num [similarityThreshold])).1⟩

/-! ## C10 — final verdict invariant -/

/-- C10: every `TopicSimilarityResponse` produced by
`check_topic_duplication` satisfies `is_duplicate = true →
similar_topic_id` is a non-`None`, nonzero id (the guard
`if is_duplicate and similar_topic_id:` at topic_service.py line 72 uses
Python truthiness); and a deep-LLM verdict of yes with reported id 0 or
`None` yields the `(False, "No similar topics found", None)` response. -/
theorem duplication_response_invariant (env : DupEnv)
    (recent : List CandidateTopic) (r : TopicSimilarityResponse)
    (hrec : env.recent_topics = .ok recent)
    (hr : check_topic_duplication env = .ok r) :
    (r.is_duplicate = true → ∃ n, r.similar_topic_id = some n ∧ n ≠ 0) ∧
    (∀ e : String,
      (deep_similarity_check
          (candidate_pool
            (check_topic_similarity env.vector_enabled env.vector_call similarityThreshold)
            env.fetch_topic recent)
          env.deep_reply = (true, e, some 0) ∨
        deep_similarity_check
          (candidate_pool
            (check_topic_similarity env.vector_enabled env.vector_call similarityThreshold)
            env.fetch_topic recent)
          env.deep_reply = (true, e, none)) →
      r = ⟨false, "No similar topics found", none⟩) := by
  unfold check_topic_duplication at hr
  rw [hrec] at hr
  dsimp only at hr
  split at hr
  · rename_i hcond
    rw [Bool.and_eq_true] at hcond
    obtain ⟨hdup, htruthy⟩ := hcond
    split at hr <;> injection hr with hr <;> subst hr
    all_goals
      constructor
    case _ =>
      intro _
      match hm : (deep_similarity_check
          (candidate_pool
            (check_topic_similarity env.vector_enabled env.vector_call similarityThreshold)
            env.fetch_topic recent) env.deep_reply).2.2 with
      | none => rw [hm] at htruthy; exact absurd htruthy (by simp [truthyOptInt])
      | some n =>
        refine ⟨n, rfl, ?_⟩
        rw [hm] at htruthy
        simpa [truthyOptInt] using htruthy
    case _ =>
      intro e he
      rcases he with he | he <;> rw [he] at htruthy <;>
        simp [truthyOptInt] at htruthy
    case _ =>
      intro _
      match hm : (deep_similarity_check
          (candidate_pool
            (check_topic_similarity env.vector_enabled env.vector_call similarityThreshold)
            env.fetch_topic recent) env.deep_reply).2.2 with
      | none => rw [hm] at htruthy; exact absurd htruthy (by simp [truthyOptInt])
      | some n =>
        refine ⟨n, rfl, ?_⟩
        rw [hm] at htruthy
        simpa [truthyOptInt] using htruthy
    case _ =>
      intro e he
      rcases he with he | he <;> rw [he] at htruthy <;>
        simp [truthyOptInt] at htruthy
  · injection hr with hr
    subst hr
    refine ⟨fun hfalse => by simp at hfalse, fun e he => rfl⟩

/-- Concrete environment for the C10 witness: the deep signal answers yes
with topic id 0. -/
def dupEnvYesZero : DupEnv :=
  ⟨.ok [⟨7, "t", "e"⟩], false, .error "disabled", fun _ => .error "unreachable",
    .ok "yes | dup | 0", fun _ => .ok ()⟩

/-- C10, witness: the invariant applied to the environment whose deep
signal reports yes with id 0; the final response is the fixed
non-duplicate one. -/
theorem duplication_response_invariant_witness :
    dupEnvYesZero.recent_topics = .ok [⟨7, "t", "e"⟩] ∧
    check_topic_duplication dupEnvYesZero = .ok ⟨false, "No similar topics found", none⟩ ∧
    ((⟨false, "No similar topics found", none⟩ : TopicSimilarityResponse).is_duplicate = true →
      ∃ n, (⟨false, "No similar topics found", none⟩ :
          TopicSimilarityResponse).similar_topic_id = some n ∧ n ≠ 0) :=
  ⟨rfl, rfl,
    (duplication_response_invariant dupEnvYesZero [⟨7, "t", "e"⟩]
      ⟨false, "No similar topics found", none⟩ rfl rfl).1⟩
